import Mathlib

/-!
Shallow embedding of the sports-matchmaking platform's core services: the
lobby lifecycle engine (`LobbyService` of the lobby service) and the rating
engine (`RatingService` and its lobby gateway client of the rating service).
Mongoose documents become Lean structures; each service method becomes a
function returning `Except` for the thrown-error paths.  Timestamps are
wall-clock milliseconds (`Nat`); `updatedAt` is refreshed on every saving
mutation, as mongoose `timestamps: true` does.
-/

deriving instance DecidableEq for Except

namespace Matchmaking

/-- Lobby status enum of the mongoose lobby schema. -/
inductive Status
  | OPEN
  | FULL
  | FINISHED
  | CANCELLED
  deriving DecidableEq, Repr

/-- An entry of a lobby's `players` array. -/
structure Player where
  userId : String
  displayName : String
  deriving DecidableEq, Repr

/-- A lobby document (fields of the mongoose lobby schema). -/
structure Lobby where
  sport : String
  location : String
  time : Nat
  maxPlayers : Int
  players : List Player
  ownerId : String
  status : Status
  description : Option String
  createdAt : Nat
  updatedAt : Nat
  deriving DecidableEq, Repr

/-- The fixed sport catalog, as listed in `LobbyService.createLobby`. -/
def validSports : List String :=
  ["Football", "Basketball", "Tennis", "Volleyball", "Badminton",
   "Swimming", "Running", "Cycling"]

/-- The errors the lobby service throws, one constructor per thrown message. -/
inductive LobbyErr
  | invalidSport
  | validationFailed
  | onlyOwnerCanEdit
  | cannotJoinFinished
  | cannotJoinCancelled
  | lobbyIsFull
  | alreadyInLobby
  | cannotLeaveFinished
  | notInLobby
  | ownerCannotLeave
  | onlyOwnerCanKick
  | playerNotInLobby
  | cannotKickYourself
  | onlyOwnerCanFinish
  | alreadyFinished
  | cannotFinishCancelled
  | onlyOwnerCanDelete
  deriving DecidableEq, Repr

/-- The payload the lobby service receives for creation: `location`, `time`,
`maxPlayers` may be absent (mongoose `required` then rejects the document). -/
structure LobbyInput where
  sport : String
  location : Option String
  time : Option Nat
  maxPlayers : Option Int
  description : Option String
  deriving DecidableEq, Repr

/-- Source `LobbyService.createLobby`: validates the sport against the catalog, then
`Lobby.create` applies the schema's `trim: true` setters on `location` and
`description` at cast time and runs the validators on the trimmed values
(`location`/`time`/`maxPlayers` required, a required string must be non-empty
after trimming, `maxPlayers` between 2 and 50, `description` at most 500
characters); the document is stored with the trimmed strings, an empty
roster, status OPEN and the creator as owner. -/
def createLobby (ownerId : String) (data : LobbyInput) (now : Nat) :
    Except LobbyErr Lobby :=
  if ¬ validSports.contains data.sport then .error .invalidSport
  else
    match data.location, data.time, data.maxPlayers with
    | some loc, some t, some mp =>
      if loc.trim = "" then .error .validationFailed
      else if mp < 2 ∨ 50 < mp then .error .validationFailed
      else if 500 < ((data.description.map String.trim).getD "").length then
        .error .validationFailed
      else .ok
        { sport := data.sport, location := loc.trim, time := t,
          maxPlayers := mp, players := [], ownerId := ownerId,
          status := .OPEN, description := data.description.map String.trim,
          createdAt := now, updatedAt := now }
    | _, _, _ => .error .validationFailed

/-- A value under one key of an update patch. -/
inductive FieldValue
  | str (s : String)
  | num (n : Int)
  | date (t : Nat)
  | stat (s : Status)
  | playerList (ps : List Player)
  deriving DecidableEq, Repr

/-- An update patch: the request body's keys in order, later entries winning
as in a JavaScript object. -/
abbrev Patch := List (String × FieldValue)

/-- The whitelist `allowedUpdates` of `LobbyService.updateLobby`. -/
def allowedUpdates : List String :=
  ["sport", "location", "time", "maxPlayers", "description"]

/-- The value stored under `key` after assigning the patch's entries in order
(the last assignment to a key wins). -/
def lookupField (fields : Patch) (key : String) : Option FieldValue :=
  (fields.reverse.find? (fun kv => kv.1 == key)).map (·.2)

/-- What `findByIdAndUpdate` does with one update field: sets the document
field named by the key; a key/value shape the schema has no path for changes
nothing. -/
def applyField (lobby : Lobby) (kv : String × FieldValue) : Lobby :=
  match kv with
  | ("sport", .str s) => { lobby with sport := s }
  | ("location", .str s) => { lobby with location := s }
  | ("time", .date t) => { lobby with time := t }
  | ("maxPlayers", .num n) => { lobby with maxPlayers := n }
  | ("description", .str s) => { lobby with description := some s }
  | ("status", .stat s) => { lobby with status := s }
  | ("ownerId", .str o) => { lobby with ownerId := o }
  | ("players", .playerList ps) => { lobby with players := ps }
  | _ => lobby

/-- The schema validator `runValidators: true` runs on one updated path:
`sport` must be in the catalog enum (an empty string also fails it),
`maxPlayers` must lie between 2 and 50, `description` at most 500 characters.
No validator inspects the current roster. -/
def fieldValid (kv : String × FieldValue) : Bool :=
  match kv with
  | ("sport", .str s) => validSports.contains s
  | ("maxPlayers", .num n) => decide (2 ≤ n) && decide (n ≤ 50)
  | ("description", .str s) => decide (s.length ≤ 500)
  | _ => true

/-- Source `LobbyService.updateLobby`: owner check, filter the patch to the allowed
keys, explicit sport validation when the filtered patch carries a truthy
sport (an empty string is falsy and skips it), then `findByIdAndUpdate` with
validators on. -/
def updateLobby (lobby : Lobby) (userId : String) (updates : Patch)
    (now : Nat) : Except LobbyErr Lobby :=
  if lobby.ownerId ≠ userId then .error .onlyOwnerCanEdit
  else
    let updateFields := updates.filter (fun kv => allowedUpdates.contains kv.1)
    let sportOk : Bool :=
      match lookupField updateFields "sport" with
      | some (.str s) => s == "" || validSports.contains s
      | _ => true
    if ¬ sportOk then .error .invalidSport
    else if ¬ updateFields.all fieldValid then .error .validationFailed
    else .ok { updateFields.foldl applyField lobby with updatedAt := now }

/-- Source `LobbyService.joinLobby`: status gates, membership check, append the
player, and flip the status to FULL when the roster reaches `maxPlayers`. -/
def joinLobby (lobby : Lobby) (userId displayName : String) (now : Nat) :
    Except LobbyErr Lobby :=
  if lobby.status = .FINISHED then .error .cannotJoinFinished
  else if lobby.status = .CANCELLED then .error .cannotJoinCancelled
  else if lobby.status = .FULL then .error .lobbyIsFull
  else if lobby.players.any (fun p => p.userId == userId) then .error .alreadyInLobby
  else
    let players := lobby.players ++ [{ userId := userId, displayName := displayName }]
    let status := if lobby.maxPlayers ≤ (players.length : Int) then Status.FULL else lobby.status
    .ok { lobby with players := players, status := status, updatedAt := now }

/-- Source `LobbyService.leaveLobby`: FINISHED gate, membership lookup (the index of
the player), owner gate, then splice the player out and revert FULL to OPEN. -/
def leaveLobby (lobby : Lobby) (userId : String) (now : Nat) :
    Except LobbyErr Lobby :=
  if lobby.status = .FINISHED then .error .cannotLeaveFinished
  else
    match lobby.players.findIdx? (fun p => p.userId == userId) with
    | none => .error .notInLobby
    | some i =>
      if lobby.ownerId = userId then .error .ownerCannotLeave
      else
        let players := lobby.players.eraseIdx i
        let status := if lobby.status = .FULL then Status.OPEN else lobby.status
        .ok { lobby with players := players, status := status, updatedAt := now }

/-- Source `LobbyService.kickPlayer`: owner check, membership lookup, self-kick
check, then splice the target out and revert FULL to OPEN; returns the
removed player record together with the lobby.  No status gate. -/
def kickPlayer (lobby : Lobby) (ownerId playerUserId : String) (now : Nat) :
    Except LobbyErr (Lobby × Player) :=
  if lobby.ownerId ≠ ownerId then .error .onlyOwnerCanKick
  else
    match lobby.players.find? (fun p => p.userId == playerUserId) with
    | none => .error .playerNotInLobby
    | some kickedPlayer =>
      if playerUserId = ownerId then .error .cannotKickYourself
      else
        let i := lobby.players.findIdx (fun p => p.userId == playerUserId)
        let players := lobby.players.eraseIdx i
        let status := if lobby.status = .FULL then Status.OPEN else lobby.status
        .ok ({ lobby with players := players, status := status, updatedAt := now },
             kickedPlayer)

/-- Source `LobbyService.finishLobby`: owner check, already-finished and cancelled
gates, then set FINISHED (the save refreshes `updatedAt`, the rating
window's anchor). -/
def finishLobby (lobby : Lobby) (userId : String) (now : Nat) :
    Except LobbyErr Lobby :=
  if lobby.ownerId ≠ userId then .error .onlyOwnerCanFinish
  else if lobby.status = .FINISHED then .error .alreadyFinished
  else if lobby.status = .CANCELLED then .error .cannotFinishCancelled
  else .ok { lobby with status := .FINISHED, updatedAt := now }

/-- Source `LobbyService.deleteLobby`: owner check; a FINISHED lobby is hard
deleted (`none`), any other one is soft-cancelled. -/
def deleteLobby (lobby : Lobby) (userId : String) (now : Nat) :
    Except LobbyErr (Option Lobby) :=
  if lobby.ownerId ≠ userId then .error .onlyOwnerCanDelete
  else if lobby.status = .FINISHED then .ok none
  else .ok (some { lobby with status := .CANCELLED, updatedAt := now })

/-- One invocation of a mutating lobby-lifecycle operation, with the
caller's identity, its payload, and the wall-clock time of the save. -/
inductive LobbyOp
  | update (userId : String) (updates : Patch) (now : Nat)
  | join (userId displayName : String) (now : Nat)
  | leave (userId : String) (now : Nat)
  | kick (ownerId playerUserId : String) (now : Nat)
  | finish (userId : String) (now : Nat)
  | deleteOrCancel (userId : String) (now : Nat)
  deriving DecidableEq, Repr

/-- Whether an operation is an `updateLobby` call. -/
def LobbyOp.isUpdate : LobbyOp → Bool
  | .update _ _ _ => true
  | _ => false

/-- Runs one operation against a fetched lobby; `ok none` means the lobby
was hard-deleted. -/
def stepLobby (lobby : Lobby) (op : LobbyOp) : Except LobbyErr (Option Lobby) :=
  match op with
  | .update u p now => (updateLobby lobby u p now).map some
  | .join u d now => (joinLobby lobby u d now).map some
  | .leave u now => (leaveLobby lobby u now).map some
  | .kick o t now => (kickPlayer lobby o t now).map (fun r => some r.1)
  | .finish u now => (finishLobby lobby u now).map some
  | .deleteOrCancel u now => deleteLobby lobby u now

/-- The stored state after one request: a request against a missing lobby
throws not-found and stores nothing; a thrown validation error leaves the
stored document as it was; a successful save commits. -/
def applyLobbyOp (st : Option Lobby) (op : LobbyOp) : Option Lobby :=
  match st with
  | none => none
  | some lobby =>
    match stepLobby lobby op with
    | .error _ => some lobby
    | .ok st' => st'

/-- The stored state after a sequence of requests. -/
def runLobbyOps (st : Option Lobby) (ops : List LobbyOp) : Option Lobby :=
  ops.foldl applyLobbyOp st

/-- The capacity bound of the specification: the roster never exceeds
`maxPlayers`. -/
def capacityOk (lobby : Lobby) : Prop :=
  (lobby.players.length : Int) ≤ lobby.maxPlayers

/-- The inductive invariant the lifecycle maintains when `updateLobby` is
kept out: the capacity bound, strengthened by "an OPEN lobby has room". -/
def lobbyInv (lobby : Lobby) : Prop :=
  (lobby.players.length : Int) ≤ lobby.maxPlayers ∧
  (lobby.status = .OPEN → (lobby.players.length : Int) < lobby.maxPlayers)

/-- The capacity bound, on a possibly deleted lobby. -/
def capacityOkOpt : Option Lobby → Prop
  | none => True
  | some lobby => capacityOk lobby

/-- The inductive invariant, on a possibly deleted lobby. -/
def lobbyInvOpt : Option Lobby → Prop
  | none => True
  | some lobby => lobbyInv lobby

instance : DecidablePred capacityOk :=
  fun _lobby => inferInstanceAs (Decidable (_ ≤ _))

instance : DecidablePred capacityOkOpt := fun st =>
  match st with
  | none => isTrue trivial
  | some lobby => inferInstanceAs (Decidable (capacityOk lobby))

theorem createLobby_inv {ownerId : String} {data : LobbyInput} {now : Nat}
    {lobby : Lobby} (h : createLobby ownerId data now = .ok lobby) :
    lobbyInv lobby := by
  unfold createLobby at h
  split at h
  · exact Except.noConfusion h
  split at h
  · split_ifs at h with h1 h2 h3
    injection h with h
    subst h
    constructor
    · simp only [lobbyInv, List.length_nil, Nat.cast_zero]
      omega
    · intro _
      simp only [List.length_nil, Nat.cast_zero]
      omega
  · exact Except.noConfusion h

theorem joinLobby_inv {lobby lobby' : Lobby} {u d : String} {now : Nat}
    (hinv : lobbyInv lobby) (h : joinLobby lobby u d now = .ok lobby') :
    lobbyInv lobby' := by
  obtain ⟨hle, hroom⟩ := hinv
  simp only [joinLobby] at h
  split_ifs at h with h1 h2 h3 h4 hc
  · -- the appended roster reached capacity: status flips to FULL
    have hlt : (lobby.players.length : Int) < lobby.maxPlayers :=
      hroom (by cases hs : lobby.status <;> simp_all)
    injection h with h
    subst h
    refine ⟨?_, fun hopen' => absurd hopen' (by simp)⟩
    simp only [List.length_append, List.length_singleton]
    push_cast
    omega
  · -- still room: status is unchanged
    simp only [List.length_append, List.length_singleton] at hc
    injection h with h
    subst h
    constructor
    · simp only [List.length_append, List.length_singleton]
      push_cast at hc ⊢
      omega
    · intro _
      simp only [List.length_append, List.length_singleton]
      push_cast at hc ⊢
      omega

theorem leaveLobby_inv {lobby lobby' : Lobby} {u : String} {now : Nat}
    (hinv : lobbyInv lobby) (h : leaveLobby lobby u now = .ok lobby') :
    lobbyInv lobby' := by
  obtain ⟨hle, hroom⟩ := hinv
  unfold leaveLobby at h
  split at h
  · exact Except.noConfusion h
  split at h
  · exact Except.noConfusion h
  next i hfind =>
    have hi : i < lobby.players.length :=
      (List.findIdx?_eq_some_iff_findIdx_eq.mp hfind).1
    split_ifs at h with hown hfull
    · -- the lobby was FULL and reverts to OPEN
      injection h with h
      subst h
      constructor
      · simp only [List.length_eraseIdx, if_pos hi]
        omega
      · intro _
        simp only [List.length_eraseIdx, if_pos hi]
        omega
    · -- status unchanged
      injection h with h
      subst h
      constructor
      · simp only [List.length_eraseIdx, if_pos hi]
        omega
      · intro hopen'
        have := hroom hopen'
        simp only [List.length_eraseIdx, if_pos hi]
        omega

theorem kickPlayer_inv {lobby lobby' : Lobby} {o t : String} {now : Nat}
    {kicked : Player} (hinv : lobbyInv lobby)
    (h : kickPlayer lobby o t now = .ok (lobby', kicked)) :
    lobbyInv lobby' := by
  obtain ⟨hle, hroom⟩ := hinv
  unfold kickPlayer at h
  split at h
  · exact Except.noConfusion h
  split at h
  · exact Except.noConfusion h
  next p hfind =>
    have hp := List.find?_some hfind
    have hmem := List.mem_of_find?_eq_some hfind
    have hi : lobby.players.findIdx (fun q => q.userId == t) <
        lobby.players.length :=
      List.findIdx_lt_length_of_exists ⟨p, hmem, hp⟩
    split_ifs at h with hself hfull
    · -- the lobby was FULL and reverts to OPEN
      injection h with h
      injection h with h hk
      subst h
      constructor
      · simp only [List.length_eraseIdx, if_pos hi]
        omega
      · intro _
        simp only [List.length_eraseIdx, if_pos hi]
        omega
    · -- status unchanged
      injection h with h
      injection h with h hk
      subst h
      constructor
      · simp only [List.length_eraseIdx, if_pos hi]
        omega
      · intro hopen'
        have := hroom hopen'
        simp only [List.length_eraseIdx, if_pos hi]
        omega

theorem finishLobby_inv {lobby lobby' : Lobby} {u : String} {now : Nat}
    (hinv : lobbyInv lobby) (h : finishLobby lobby u now = .ok lobby') :
    lobbyInv lobby' := by
  unfold finishLobby at h
  split_ifs at h with h1 h2 h3
  injection h with h
  subst h
  exact ⟨hinv.1, fun hopen' => absurd hopen' (by simp)⟩

theorem deleteLobby_inv {lobby : Lobby} {st' : Option Lobby} {u : String}
    {now : Nat} (hinv : lobbyInv lobby)
    (h : deleteLobby lobby u now = .ok st') : lobbyInvOpt st' := by
  unfold deleteLobby at h
  split_ifs at h with h1 h2
  · injection h with h
    subst h
    trivial
  · injection h with h
    subst h
    exact ⟨hinv.1, fun hopen' => absurd hopen' (by simp)⟩

theorem applyLobbyOp_inv {st : Option Lobby} {op : LobbyOp}
    (hinv : lobbyInvOpt st) (hop : op.isUpdate = false) :
    lobbyInvOpt (applyLobbyOp st op) := by
  cases st with
  | none => exact hinv
  | some lobby =>
    unfold applyLobbyOp
    cases op with
    | update u p n => simp [LobbyOp.isUpdate] at hop
    | join u d n =>
      cases hj : joinLobby lobby u d n with
      | error e => simpa [stepLobby, hj] using hinv
      | ok l' =>
        simpa [stepLobby, hj] using joinLobby_inv hinv hj
    | leave u n =>
      cases hj : leaveLobby lobby u n with
      | error e => simpa [stepLobby, hj] using hinv
      | ok l' =>
        simpa [stepLobby, hj] using leaveLobby_inv hinv hj
    | kick o t n =>
      cases hj : kickPlayer lobby o t n with
      | error e => simpa [stepLobby, hj] using hinv
      | ok pr =>
        simpa [stepLobby, hj] using kickPlayer_inv hinv (by rw [hj])
    | finish u n =>
      cases hj : finishLobby lobby u n with
      | error e => simpa [stepLobby, hj] using hinv
      | ok l' =>
        simpa [stepLobby, hj] using finishLobby_inv hinv hj
    | deleteOrCancel u n =>
      cases hj : deleteLobby lobby u n with
      | error e => simpa [stepLobby, hj] using hinv
      | ok st' =>
        simpa [stepLobby, hj] using deleteLobby_inv hinv hj

theorem runLobbyOps_inv {st : Option Lobby} {ops : List LobbyOp}
    (hinv : lobbyInvOpt st) (hops : ∀ op ∈ ops, op.isUpdate = false) :
    lobbyInvOpt (runLobbyOps st ops) := by
  induction ops generalizing st with
  | nil => exact hinv
  | cons op rest ih =>
    exact ih (applyLobbyOp_inv hinv (hops op (by simp)))
      (fun o ho => hops o (by simp [ho]))

/-- C1.  The claim quantifies over every operation sequence, `updateLobby`
included; `updateLobby` accepts any `maxPlayers` between 2 and 50 without
inspecting the roster, so it can push `maxPlayers` below the current roster
size, and the bound `players.length ≤ maxPlayers` breaks.  What does hold is
the same bound over every sequence of the remaining operations: starting
from any lobby satisfying the inductive invariant (which `createLobby`
establishes: conjunct one below), every sequence of join/leave/kick/finish/
deleteOrCancel requests keeps `players.length ≤ maxPlayers` (conjunct two). -/
theorem c1_capacity_invariant :
    (∀ (ownerId : String) (data : LobbyInput) (now : Nat) (lobby : Lobby),
      createLobby ownerId data now = .ok lobby → lobbyInv lobby) ∧
    (∀ (lobby : Lobby) (ops : List LobbyOp), lobbyInv lobby →
      (∀ op ∈ ops, op.isUpdate = false) →
      capacityOkOpt (runLobbyOps (some lobby) ops)) := by
  constructor
  · intro ownerId data now lobby h
    exact createLobby_inv h
  · intro lobby ops hinv hops
    have h : lobbyInvOpt (runLobbyOps (some lobby) ops) :=
      runLobbyOps_inv hinv hops
    cases hr : runLobbyOps (some lobby) ops with
    | none => trivial
    | some l' =>
      rw [hr] at h
      exact h.1

/-- Witness for C1: a concrete created lobby and a concrete update-free
sequence of requests against it. -/
theorem c1_capacity_invariant_witness :
    capacityOkOpt (runLobbyOps (some
      { sport := "Football", location := "Park", time := 10,
        maxPlayers := 2, players := [], ownerId := "alice",
        status := .OPEN, description := none, createdAt := 0,
        updatedAt := 0 })
      [LobbyOp.join "bob" "Bob" 1, LobbyOp.join "carol" "Carol" 2,
       LobbyOp.leave "bob" 3]) :=
  c1_capacity_invariant.2 _ _ (by constructor <;> decide) (by decide)

/-- Counterexample to C1 as stated: create a 3-player lobby, fill it, then
have the owner lower `maxPlayers` to 2 — the update succeeds and the stored
roster of 3 now exceeds `maxPlayers`. -/
theorem c1_counterexample :
    ¬ capacityOkOpt (runLobbyOps (some
      { sport := "Football", location := "Park", time := 10,
        maxPlayers := 3, players := [], ownerId := "owner",
        status := .OPEN, description := none, createdAt := 0,
        updatedAt := 0 })
      [LobbyOp.join "a" "A" 1, LobbyOp.join "b" "B" 2,
       LobbyOp.join "c" "C" 3,
       LobbyOp.update "owner" [("maxPlayers", FieldValue.num 2)] 4]) := by
  decide

/-- C2 (amended).  leaveLobby gates on FINISHED and so never changes a
FINISHED lobby's roster; but kickPlayer carries no status gate at all (it can
remove a player from a FINISHED or CANCELLED lobby) and leaveLobby does not
gate CANCELLED either, so the roster of a terminal lobby is not immutable. -/
theorem c2_finished_leave_immutable :
    ∀ (lobby : Lobby) (u : String) (now : Nat), lobby.status = .FINISHED →
      leaveLobby lobby u now = .error .cannotLeaveFinished := by
  intro lobby u now h
  unfold leaveLobby
  rw [if_pos h]

/-- Witness for C2: leaving a concrete FINISHED lobby fails. -/
theorem c2_finished_leave_immutable_witness :
    leaveLobby
      { sport := "Football", location := "Park", time := 10, maxPlayers := 4,
        players := [⟨"bob", "Bob"⟩], ownerId := "owner", status := .FINISHED,
        description := none, createdAt := 0, updatedAt := 9 }
      "bob" 20 = .error .cannotLeaveFinished :=
  c2_finished_leave_immutable _ "bob" 20 rfl

/-- Counterexample to C2 as stated: kicking a player out of a FINISHED lobby
succeeds and removes the player from the roster. -/
theorem c2_counterexample :
    kickPlayer
      { sport := "Football", location := "Park", time := 10, maxPlayers := 4,
        players := [⟨"bob", "Bob"⟩], ownerId := "owner", status := .FINISHED,
        description := none, createdAt := 0, updatedAt := 9 }
      "owner" "bob" 20 =
    .ok ({ sport := "Football", location := "Park", time := 10,
           maxPlayers := 4, players := [], ownerId := "owner",
           status := .FINISHED, description := none, createdAt := 0,
           updatedAt := 20 },
        ⟨"bob", "Bob"⟩) ∧
    ([] : List Player) ≠ [⟨"bob", "Bob"⟩] := by
  constructor
  · decide
  · decide

/-- C3 (amended).  joinLobby throws the Full error exactly when the lobby's
status is FULL; a roster already at `maxPlayers` does not by itself trigger
it (a lobby at capacity whose status is still OPEN admits the join, see the
counterexample).  When the status is FULL the stored lobby is unchanged. -/
theorem c3_join_full_iff_status :
    ∀ (lobby : Lobby) (u d : String) (now : Nat),
      (joinLobby lobby u d now = .error .lobbyIsFull ↔ lobby.status = .FULL) ∧
      (lobby.status = .FULL →
        applyLobbyOp (some lobby) (.join u d now) = some lobby) := by
  intro lobby u d now
  refine ⟨⟨?_, ?_⟩, ?_⟩
  · intro h
    unfold joinLobby at h
    split_ifs at h with h1 h2 h3 h4 <;> simp_all
  · intro h
    unfold joinLobby
    rw [h]
    simp
  · intro h
    simp [applyLobbyOp, stepLobby, joinLobby, h, Except.map]

/-- Counterexample to C3 as stated: a lobby whose roster is already at
`maxPlayers` but whose status is OPEN (reachable through updateLobby
lowering `maxPlayers`) admits a further join instead of failing Full. -/
theorem c3_counterexample :
    joinLobby
      { sport := "Football", location := "Park", time := 10, maxPlayers := 2,
        players := [⟨"a", "A"⟩, ⟨"b", "B"⟩], ownerId := "a", status := .OPEN,
        description := none, createdAt := 0, updatedAt := 0 }
      "c" "C" 5 =
    .ok { sport := "Football", location := "Park", time := 10,
          maxPlayers := 2, players := [⟨"a", "A"⟩, ⟨"b", "B"⟩, ⟨"c", "C"⟩],
          ownerId := "a", status := .FULL, description := none,
          createdAt := 0, updatedAt := 5 } := by
  decide

/-- C4 (amended).  On a non-FINISHED lobby, a leave request by the owner
fails with OwnerCannotLeave when the owner is in the roster, but with the
NotMember error when the owner is absent from it (the membership check runs
before the owner check); either way the owner never leaves. -/
theorem c4_owner_leave_requires_membership :
    ∀ (lobby : Lobby) (now : Nat), lobby.status ≠ .FINISHED →
      leaveLobby lobby lobby.ownerId now =
        (if lobby.players.any (fun p => p.userId == lobby.ownerId)
         then .error .ownerCannotLeave else .error .notInLobby) := by
  intro lobby now h
  unfold leaveLobby
  rw [if_neg h]
  by_cases hmem : lobby.players.any (fun p => p.userId == lobby.ownerId)
  · rw [if_pos hmem]
    cases hf : lobby.players.findIdx? (fun p => p.userId == lobby.ownerId) with
    | none =>
      rw [List.findIdx?_eq_none_iff] at hf
      rw [List.any_eq_true] at hmem
      obtain ⟨x, hx, hpx⟩ := hmem
      rw [hf x hx] at hpx
      exact Bool.noConfusion hpx
    | some i => simp
  · rw [if_neg hmem]
    cases hf : lobby.players.findIdx? (fun p => p.userId == lobby.ownerId) with
    | none => rfl
    | some i =>
      have hnone : lobby.players.findIdx?
          (fun p => p.userId == lobby.ownerId) = none :=
        List.findIdx?_eq_none_iff.mpr (by
          intro x hx
          by_contra hpx
          exact hmem (List.any_eq_true.mpr ⟨x, hx, by simpa using hpx⟩))
      rw [hf] at hnone
      exact Option.noConfusion hnone

/-- Witness for C4: the owner of a concrete OPEN lobby who is in the roster
gets the OwnerCannotLeave error. -/
theorem c4_owner_leave_requires_membership_witness :
    leaveLobby
      { sport := "Football", location := "Park", time := 10, maxPlayers := 4,
        players := [⟨"owner", "Owner"⟩, ⟨"bob", "Bob"⟩], ownerId := "owner",
        status := .OPEN, description := none, createdAt := 0, updatedAt := 0 }
      "owner" 6 = .error .ownerCannotLeave :=
  (c4_owner_leave_requires_membership _ 6 (by decide)).trans (by decide)

/-- Counterexample to C4 as stated: when the owner is not in the roster the
owner's leave request fails with the NotMember error, not OwnerCannotLeave. -/
theorem c4_counterexample :
    leaveLobby
      { sport := "Football", location := "Park", time := 10, maxPlayers := 4,
        players := [⟨"bob", "Bob"⟩], ownerId := "owner", status := .OPEN,
        description := none, createdAt := 0, updatedAt := 0 }
      "owner" 6 = .error .notInLobby ∧
    LobbyErr.notInLobby ≠ LobbyErr.ownerCannotLeave := by
  constructor
  · decide
  · decide

/-- Outcome of the gateway client's HTTP GET of `/lobbies/{id}`: a 2xx
response with the lobby, a non-2xx response (axios throws with
`error.response.status` set), or a transport/timeout failure (axios throws
with no `error.response`). -/
inductive FetchResult
  | success (lobby : Lobby)
  | httpError (status : Nat)
  | networkError
  deriving DecidableEq, Repr

/-- The two errors the gateway client's catch block throws. -/
inductive FetchErr
  | lobbyNotFound
  | remoteUnavailable
  deriving DecidableEq, Repr

/-- The rating side's `LobbyService.getLobbyById`: a 404 response becomes
the not-found error; any other failure becomes the failed-to-fetch error. -/
def getLobbyById (result : FetchResult) : Except FetchErr Lobby :=
  match result with
  | .success lobby => .ok lobby
  | .httpError s =>
    if s = 404 then .error .lobbyNotFound else .error .remoteUnavailable
  | .networkError => .error .remoteUnavailable

/-- Result of `LobbyService.canUserRateInLobby` once the lobby is fetched:
either eligible, or one of its three refusal reasons. -/
inductive RateCheck
  | canRate
  | lobbyNotFinished
  | ratingPeriodExpired
  | notInMatch
  deriving DecidableEq, Repr

/-- The expression `(now - lobbyFinishTime) / (1000 * 60 * 60)`: the hour difference as an
exact rational (for integer-millisecond timestamps the JavaScript double
computation agrees with it on every comparison against 72). -/
def hoursSinceFinish (now updatedAt : Nat) : ℚ :=
  ((now : ℚ) - (updatedAt : ℚ)) / (1000 * 60 * 60)

/-- Source `LobbyService.canUserRateInLobby`, after the fetch: finished check, the
72-hour window check against `updatedAt`, then roster membership. -/
def canUserRateInLobby (lobby : Lobby) (userId : String) (now : Nat) :
    RateCheck :=
  if lobby.status ≠ .FINISHED then .lobbyNotFinished
  else if 72 < hoursSinceFinish now lobby.updatedAt then .ratingPeriodExpired
  else if ¬ lobby.players.any (fun p => p.userId == userId) then .notInMatch
  else .canRate

/-- Rating type enum of the mongoose rating schema. -/
inductive RType
  | LIKE
  | DISLIKE
  deriving DecidableEq, Repr

/-- Rating category enum of the mongoose rating schema (all eight values;
the schema itself does not tie them to the type). -/
inductive Category
  | Friendly
  | Communicative
  | Sporty
  | Fair
  | Toxic
  | Aggressive
  | Sloppy
  | Unfair
  deriving DecidableEq, Repr

/-- A rating document. -/
structure Rating where
  fromUserId : String
  toUserId : String
  lobbyId : String
  type : RType
  category : Category
  createdAt : Nat
  deriving DecidableEq, Repr

/-- The list `likeCategories` of `RatingService.submitRating`. -/
def likeCategories : List Category :=
  [.Friendly, .Communicative, .Sporty, .Fair]

/-- The list `dislikeCategories` of `RatingService.submitRating`. -/
def dislikeCategories : List Category :=
  [.Toxic, .Aggressive, .Sloppy, .Unfair]

/-- The invariant of every stored rating: `submitRating`, the only writer,
rejects a category outside the set matching the type. -/
def categoryMatchesType (r : Rating) : Prop :=
  (r.type = .LIKE → r.category ∈ likeCategories) ∧
  (r.type = .DISLIKE → r.category ∈ dislikeCategories)

instance : DecidablePred categoryMatchesType := fun r =>
  inferInstanceAs (Decidable
    ((r.type = .LIKE → r.category ∈ likeCategories) ∧
     (r.type = .DISLIKE → r.category ∈ dislikeCategories)))

/-- The `likes` block of the stats object, one field per like category. -/
structure LikeStats where
  total : Nat
  Friendly : Nat
  Communicative : Nat
  Sporty : Nat
  Fair : Nat
  deriving DecidableEq, Repr

/-- The `dislikes` block of the stats object. -/
structure DislikeStats where
  total : Nat
  Toxic : Nat
  Aggressive : Nat
  Sloppy : Nat
  Unfair : Nat
  deriving DecidableEq, Repr

/-- The stats object `getUserRatingStats` returns; all eight category
fields are present by construction (zero-initialised). -/
structure RatingStats where
  totalRatings : Nat
  likes : LikeStats
  dislikes : DislikeStats
  deriving DecidableEq, Repr

/-- The step `stats.likes[rating.category]++`: bumps the field of `likes` named by
the category.  A dislike-side category names no field of the `likes` block
(the JavaScript would create a `NaN` entry outside the schema), so only the
four like-side categories act. -/
def bumpLike (s : LikeStats) : Category → LikeStats
  | .Friendly => { s with Friendly := s.Friendly + 1 }
  | .Communicative => { s with Communicative := s.Communicative + 1 }
  | .Sporty => { s with Sporty := s.Sporty + 1 }
  | .Fair => { s with Fair := s.Fair + 1 }
  | _ => s

/-- The step `stats.dislikes[rating.category]++`, the dislike-side counterpart. -/
def bumpDislike (s : DislikeStats) : Category → DislikeStats
  | .Toxic => { s with Toxic := s.Toxic + 1 }
  | .Aggressive => { s with Aggressive := s.Aggressive + 1 }
  | .Sloppy => { s with Sloppy := s.Sloppy + 1 }
  | .Unfair => { s with Unfair := s.Unfair + 1 }
  | _ => s

/-- One iteration of the `ratings.forEach` loop of `getUserRatingStats`. -/
def addRating (stats : RatingStats) (r : Rating) : RatingStats :=
  if r.type = .LIKE then
    { stats with likes := bumpLike { stats.likes with total := stats.likes.total + 1 } r.category }
  else
    { stats with dislikes := bumpDislike { stats.dislikes with total := stats.dislikes.total + 1 } r.category }

/-- Source `RatingService.getUserRatingStats`: fetch the ratings addressed to the
user, zero-initialise every counter, then fold the loop over them. -/
def getUserRatingStats (store : List Rating) (userId : String) : RatingStats :=
  let ratings := store.filter (fun r => r.toUserId == userId)
  ratings.foldl addRating
    { totalRatings := ratings.length,
      likes := { total := 0, Friendly := 0, Communicative := 0,
                 Sporty := 0, Fair := 0 },
      dislikes := { total := 0, Toxic := 0, Aggressive := 0,
                    Sloppy := 0, Unfair := 0 } }

/-- A rating as `getMyRatings` returns it: the projection
`.select('-fromUserId -__v')` leaves no sender field in the record type. -/
structure ReceivedRating where
  toUserId : String
  lobbyId : String
  type : RType
  category : Category
  createdAt : Nat
  deriving DecidableEq, Repr

/-- The projection applied to each returned rating. -/
def stripSender (r : Rating) : ReceivedRating :=
  { toUserId := r.toUserId, lobbyId := r.lobbyId, type := r.type,
    category := r.category, createdAt := r.createdAt }

/-- The optional filters of `getMyRatings`. -/
structure RatingFilters where
  type : Option RType
  category : Option Category
  deriving DecidableEq, Repr

/-- The mongo query `getMyRatings` builds: `toUserId` always, `type` and
`category` only when the filter carries them. -/
def matchesQuery (userId : String) (filters : RatingFilters) (r : Rating) :
    Bool :=
  r.toUserId == userId &&
  (match filters.type with
   | some t => r.type == t
   | none => true) &&
  (match filters.category with
   | some c => r.category == c
   | none => true)

/-- The sort order `.sort({ createdAt: -1 })`: newest first. -/
def newestFirst (a b : Rating) : Prop := b.createdAt ≤ a.createdAt

instance : DecidableRel newestFirst := fun _ _ => Nat.decLe _ _

instance : IsTotal Rating newestFirst :=
  ⟨fun a b => le_total b.createdAt a.createdAt⟩

instance : IsTrans Rating newestFirst :=
  ⟨fun _ _ _ hab hbc => le_trans hbc hab⟩

/-- Source `RatingService.getMyRatings`: filter by recipient and the optional
filters, sort newest first, and strip the sender from each record. -/
def getMyRatings (store : List Rating) (userId : String)
    (filters : RatingFilters) : List ReceivedRating :=
  ((store.filter (matchesQuery userId filters)).insertionSort
    newestFirst).map stripSender

theorem hoursSinceFinish_add (u k : Nat) :
    hoursSinceFinish (u + k * 3600000) u = k := by
  unfold hoursSinceFinish
  push_cast
  rw [add_sub_cancel_left]
  norm_num

/-- C5.  Against a FINISHED lobby, the eligibility check reports the
expired window exactly when `(now - updatedAt) / 3,600,000` exceeds 72
(strict comparison), so a submission at exactly 72.0 hours passes the
window check and one at 73 hours fails it. -/
theorem c5_rating_window :
    ∀ (lobby : Lobby) (userId : String) (now : Nat),
      lobby.status = .FINISHED →
      (canUserRateInLobby lobby userId now = .ratingPeriodExpired ↔
        72 < hoursSinceFinish now lobby.updatedAt) ∧
      (now = lobby.updatedAt + 72 * 3600000 →
        canUserRateInLobby lobby userId now ≠ .ratingPeriodExpired) ∧
      (now = lobby.updatedAt + 73 * 3600000 →
        canUserRateInLobby lobby userId now = .ratingPeriodExpired) := by
  intro lobby userId now h
  have hiff : canUserRateInLobby lobby userId now = .ratingPeriodExpired ↔
      72 < hoursSinceFinish now lobby.updatedAt := by
    unfold canUserRateInLobby
    rw [if_neg (by simp [h])]
    by_cases hw : 72 < hoursSinceFinish now lobby.updatedAt
    · simp [hw]
    · rw [if_neg hw]
      split <;> simp [hw]
  refine ⟨hiff, ?_, ?_⟩
  · intro hnow
    rw [Ne, hiff, hnow, hoursSinceFinish_add]
    norm_num
  · intro hnow
    rw [hiff, hnow, hoursSinceFinish_add]
    norm_num

/-- Witness for C5: a FINISHED lobby rated exactly 72 hours after its
`updatedAt` passes the window check; at 73 hours it fails. -/
theorem c5_rating_window_witness :
    canUserRateInLobby
      { sport := "Football", location := "Park", time := 10, maxPlayers := 2,
        players := [⟨"a", "A"⟩, ⟨"b", "B"⟩], ownerId := "a",
        status := .FINISHED, description := none, createdAt := 0,
        updatedAt := 1000 }
      "b" (1000 + 72 * 3600000) ≠ .ratingPeriodExpired ∧
    canUserRateInLobby
      { sport := "Football", location := "Park", time := 10, maxPlayers := 2,
        players := [⟨"a", "A"⟩, ⟨"b", "B"⟩], ownerId := "a",
        status := .FINISHED, description := none, createdAt := 0,
        updatedAt := 1000 }
      "b" (1000 + 73 * 3600000) = .ratingPeriodExpired :=
  ⟨(c5_rating_window _ "b" _ rfl).2.1 rfl, (c5_rating_window _ "b" _ rfl).2.2 rfl⟩

/-- C7.  The gateway client reports the lobby as missing exactly when the
remote answered 404; a transport/timeout failure, or any other HTTP error,
surfaces as the distinct fetch-failure error instead. -/
theorem c7_gateway_errors :
    ∀ result : FetchResult,
      (getLobbyById result = .error .lobbyNotFound ↔
        result = .httpError 404) ∧
      (getLobbyById result = .error .remoteUnavailable ↔
        (result = .networkError ∨ ∃ s, s ≠ 404 ∧ result = .httpError s)) := by
  intro result
  cases result with
  | success lobby => simp [getLobbyById]
  | httpError s =>
    by_cases hs : s = 404
    · subst hs
      simp [getLobbyById]
    · refine ⟨?_, ?_⟩
      · simp [getLobbyById, hs]
      · simp only [getLobbyById, if_neg hs]
        exact ⟨fun _ => Or.inr ⟨s, hs, rfl⟩, fun _ => trivial⟩
  | networkError => simp [getLobbyById]

/-- The sum of the four per-category like counters. -/
def likeSum (s : LikeStats) : Nat :=
  s.Friendly + s.Communicative + s.Sporty + s.Fair

/-- The sum of the four per-category dislike counters. -/
def dislikeSum (s : DislikeStats) : Nat :=
  s.Toxic + s.Aggressive + s.Sloppy + s.Unfair

/-- Per-category sums agreeing with the per-type totals. -/
def statsBalanced (s : RatingStats) : Prop :=
  likeSum s.likes = s.likes.total ∧ dislikeSum s.dislikes = s.dislikes.total

theorem bumpLike_total (s : LikeStats) (c : Category) :
    (bumpLike s c).total = s.total := by
  cases c <;> rfl

theorem bumpDislike_total (s : DislikeStats) (c : Category) :
    (bumpDislike s c).total = s.total := by
  cases c <;> rfl

theorem addRating_totalRatings (stats : RatingStats) (r : Rating) :
    (addRating stats r).totalRatings = stats.totalRatings := by
  unfold addRating
  split <;> rfl

theorem addRating_total_sum (stats : RatingStats) (r : Rating) :
    (addRating stats r).likes.total + (addRating stats r).dislikes.total =
      stats.likes.total + stats.dislikes.total + 1 := by
  unfold addRating
  split <;> simp [bumpLike_total, bumpDislike_total] <;> omega

theorem addRating_balanced {stats : RatingStats} {r : Rating}
    (hb : statsBalanced stats) (hwf : categoryMatchesType r) :
    statsBalanced (addRating stats r) := by
  obtain ⟨hl, hd⟩ := hb
  unfold addRating
  split
  · next ht =>
    have hc := hwf.1 ht
    simp only [likeCategories, List.mem_cons, List.not_mem_nil, or_false] at hc
    rcases hc with hc | hc | hc | hc <;>
      · rw [hc]
        exact ⟨by simp [likeSum, bumpLike] at hl ⊢; omega, hd⟩
  · next ht =>
    have ht' : r.type = .DISLIKE := by cases h2 : r.type <;> simp_all
    have hc := hwf.2 ht'
    simp only [dislikeCategories, List.mem_cons, List.not_mem_nil, or_false] at hc
    rcases hc with hc | hc | hc | hc <;>
      · rw [hc]
        exact ⟨hl, by simp [dislikeSum, bumpDislike] at hd ⊢; omega⟩

theorem foldl_addRating_totalRatings (l : List Rating) (init : RatingStats) :
    (l.foldl addRating init).totalRatings = init.totalRatings := by
  induction l generalizing init with
  | nil => rfl
  | cons r rest ih => rw [List.foldl_cons, ih, addRating_totalRatings]

theorem foldl_addRating_total (l : List Rating) (init : RatingStats) :
    (l.foldl addRating init).likes.total +
      (l.foldl addRating init).dislikes.total =
    init.likes.total + init.dislikes.total + l.length := by
  induction l generalizing init with
  | nil => simp
  | cons r rest ih =>
    rw [List.foldl_cons, ih, addRating_total_sum, List.length_cons]
    omega

theorem foldl_addRating_balanced (l : List Rating) (init : RatingStats)
    (hb : statsBalanced init) (hwf : ∀ r ∈ l, categoryMatchesType r) :
    statsBalanced (l.foldl addRating init) := by
  induction l generalizing init with
  | nil => exact hb
  | cons r rest ih =>
    rw [List.foldl_cons]
    exact ih _ (addRating_balanced hb (hwf r (by simp)))
      (fun x hx => hwf x (by simp [hx]))

/-- C6.  Over any store whose ratings carry a category matching their type
(the invariant `submitRating`, the only writer, maintains), the stats
object satisfies `totalRatings = likes.total + dislikes.total` and each
per-category block sums to its per-type total; the eight category fields
exist (zero-initialised) by construction of the stats record. -/
theorem c6_stats_totals :
    ∀ (store : List Rating) (userId : String),
      (∀ r ∈ store, categoryMatchesType r) →
      (getUserRatingStats store userId).totalRatings =
          (getUserRatingStats store userId).likes.total +
          (getUserRatingStats store userId).dislikes.total ∧
      (getUserRatingStats store userId).likes.Friendly +
          (getUserRatingStats store userId).likes.Communicative +
          (getUserRatingStats store userId).likes.Sporty +
          (getUserRatingStats store userId).likes.Fair =
        (getUserRatingStats store userId).likes.total ∧
      (getUserRatingStats store userId).dislikes.Toxic +
          (getUserRatingStats store userId).dislikes.Aggressive +
          (getUserRatingStats store userId).dislikes.Sloppy +
          (getUserRatingStats store userId).dislikes.Unfair =
        (getUserRatingStats store userId).dislikes.total := by
  intro store userId hwf
  simp only [getUserRatingStats]
  have hwf' : ∀ r ∈ store.filter (fun r => r.toUserId == userId),
      categoryMatchesType r :=
    fun r hr => hwf r (List.mem_of_mem_filter hr)
  have h1 := foldl_addRating_totalRatings
    (store.filter (fun r => r.toUserId == userId))
    { totalRatings := (store.filter (fun r => r.toUserId == userId)).length,
      likes := { total := 0, Friendly := 0, Communicative := 0,
                 Sporty := 0, Fair := 0 },
      dislikes := { total := 0, Toxic := 0, Aggressive := 0,
                    Sloppy := 0, Unfair := 0 } }
  have h2 := foldl_addRating_total
    (store.filter (fun r => r.toUserId == userId))
    { totalRatings := (store.filter (fun r => r.toUserId == userId)).length,
      likes := { total := 0, Friendly := 0, Communicative := 0,
                 Sporty := 0, Fair := 0 },
      dislikes := { total := 0, Toxic := 0, Aggressive := 0,
                    Sloppy := 0, Unfair := 0 } }
  have h3 := foldl_addRating_balanced
    (store.filter (fun r => r.toUserId == userId))
    { totalRatings := (store.filter (fun r => r.toUserId == userId)).length,
      likes := { total := 0, Friendly := 0, Communicative := 0,
                 Sporty := 0, Fair := 0 },
      dislikes := { total := 0, Toxic := 0, Aggressive := 0,
                    Sloppy := 0, Unfair := 0 } }
    ⟨rfl, rfl⟩ hwf'
  exact ⟨by rw [h1, h2]; simp, h3.1, h3.2⟩

/-- A concrete rating store for the C6 witness. -/
def sampleRatings : List Rating :=
  [{ fromUserId := "a", toUserId := "me", lobbyId := "l1",
     type := .LIKE, category := .Friendly, createdAt := 5 },
   { fromUserId := "b", toUserId := "me", lobbyId := "l1",
     type := .DISLIKE, category := .Toxic, createdAt := 7 },
   { fromUserId := "a", toUserId := "other", lobbyId := "l1",
     type := .LIKE, category := .Fair, createdAt := 6 }]

/-- Witness for C6: the totals hold on a concrete store. -/
theorem c6_stats_totals_witness :
    (getUserRatingStats sampleRatings "me").totalRatings =
        (getUserRatingStats sampleRatings "me").likes.total +
        (getUserRatingStats sampleRatings "me").dislikes.total ∧
    (getUserRatingStats sampleRatings "me").likes.Friendly +
        (getUserRatingStats sampleRatings "me").likes.Communicative +
        (getUserRatingStats sampleRatings "me").likes.Sporty +
        (getUserRatingStats sampleRatings "me").likes.Fair =
      (getUserRatingStats sampleRatings "me").likes.total ∧
    (getUserRatingStats sampleRatings "me").dislikes.Toxic +
        (getUserRatingStats sampleRatings "me").dislikes.Aggressive +
        (getUserRatingStats sampleRatings "me").dislikes.Sloppy +
        (getUserRatingStats sampleRatings "me").dislikes.Unfair =
      (getUserRatingStats sampleRatings "me").dislikes.total :=
  c6_stats_totals sampleRatings "me" (by decide)

/-- C8.  Every record `getMyRatings` returns is the sender-stripped
projection of a stored rating addressed to the requesting user that matches
the optional filters, and the returned sequence is sorted newest first.
The returned record type carries no `fromUserId` field at all. -/
theorem c8_my_ratings :
    ∀ (store : List Rating) (userId : String) (filters : RatingFilters),
      (∀ q ∈ getMyRatings store userId filters,
        ∃ r ∈ store, r.toUserId = userId ∧
          (∀ t, filters.type = some t → r.type = t) ∧
          (∀ c, filters.category = some c → r.category = c) ∧
          q = stripSender r) ∧
      List.Sorted (fun a b => b.createdAt ≤ a.createdAt)
        (getMyRatings store userId filters) := by
  intro store userId filters
  constructor
  · intro q hq
    unfold getMyRatings at hq
    rw [List.mem_map] at hq
    obtain ⟨r, hr, hq⟩ := hq
    have hr' : r ∈ store.filter (matchesQuery userId filters) :=
      (List.perm_insertionSort newestFirst _).subset hr
    rw [List.mem_filter] at hr'
    obtain ⟨hrs, hm⟩ := hr'
    refine ⟨r, hrs, ?_, ?_, ?_, hq.symm⟩
    · have := hm
      simp only [matchesQuery, Bool.and_eq_true, beq_iff_eq] at this
      exact this.1.1
    · intro t ht
      simp only [matchesQuery, ht, Bool.and_eq_true, beq_iff_eq] at hm
      exact hm.1.2
    · intro c hc
      simp only [matchesQuery, hc, Bool.and_eq_true, beq_iff_eq] at hm
      exact hm.2
  · exact List.pairwise_map.mpr
      (List.sorted_insertionSort newestFirst
        (store.filter (matchesQuery userId filters)))

/-- The errors the controllers map to HTTP 400 InvalidInput: the explicit
sport-catalog rejection and a mongoose ValidationError. -/
def LobbyErr.isInvalidInput : LobbyErr → Bool
  | .invalidSport => true
  | .validationFailed => true
  | _ => false

/-- C9.  On a valid payload (sport in the catalog, location non-empty once
trimmed, time present, `maxPlayers` between 2 and 50, description within the
schema limit) `createLobby` returns a new OPEN lobby with an empty roster
owned by the creator, storing the trimmed location and description; an
out-of-catalog sport, a missing required field (including a location that is
all whitespace, which the trim setter reduces to the empty string the
required validator rejects), or a `maxPlayers` outside 2–50 makes it fail
with an InvalidInput-class error. -/
theorem c9_create_lobby :
    ∀ (ownerId : String) (data : LobbyInput) (now : Nat),
      (∀ loc t mp, data.location = some loc → loc.trim ≠ "" →
        data.time = some t → data.maxPlayers = some mp →
        2 ≤ mp → mp ≤ 50 → validSports.contains data.sport →
        ((data.description.map String.trim).getD "").length ≤ 500 →
        createLobby ownerId data now = .ok
          { sport := data.sport, location := loc.trim, time := t,
            maxPlayers := mp, players := [], ownerId := ownerId,
            status := .OPEN, description := data.description.map String.trim,
            createdAt := now, updatedAt := now }) ∧
      (¬ validSports.contains data.sport →
        createLobby ownerId data now = .error .invalidSport) ∧
      ((data.location = none ∨ data.time = none ∨ data.maxPlayers = none) →
        ∃ e, createLobby ownerId data now = .error e ∧
          e.isInvalidInput = true) ∧
      (∀ mp, data.maxPlayers = some mp → (mp < 2 ∨ 50 < mp) →
        ∃ e, createLobby ownerId data now = .error e ∧
          e.isInvalidInput = true) := by
  intro ownerId data now
  refine ⟨?_, ?_, ?_, ?_⟩
  · intro loc t mp hlo hne hti hmp h2 h50 hsv hd
    unfold createLobby
    rw [if_neg (by simpa using hsv), hlo, hti, hmp]
    dsimp only
    rw [if_neg hne, if_neg (by omega), if_neg (by omega)]
  · intro hns
    unfold createLobby
    rw [if_pos (by simpa using hns)]
  · intro hmiss
    by_cases hs : validSports.contains data.sport
    · refine ⟨.validationFailed, ?_, rfl⟩
      unfold createLobby
      rw [if_neg (by simpa using hs)]
      cases hlo : data.location with
      | none => rfl
      | some loc =>
        cases hti : data.time with
        | none => rfl
        | some t =>
          cases hmp : data.maxPlayers with
          | none => rfl
          | some mp => simp_all
    · exact ⟨.invalidSport, by unfold createLobby; rw [if_pos (by simpa using hs)], rfl⟩
  · intro mp hmp hout
    by_cases hs : validSports.contains data.sport
    · refine ⟨.validationFailed, ?_, rfl⟩
      unfold createLobby
      rw [if_neg (by simpa using hs)]
      cases hlo : data.location with
      | none => rfl
      | some loc =>
        cases hti : data.time with
        | none => rfl
        | some t =>
          rw [hmp]
          dsimp only
          split_ifs <;> rfl
    · exact ⟨.invalidSport, by unfold createLobby; rw [if_pos (by simpa using hs)], rfl⟩

/-- C10.  A non-empty owner-issued patch whose keys all lie outside the
whitelist {sport, location, time, maxPlayers, description} succeeds and
changes nothing but `updatedAt`: in particular `status`, `ownerId` and
`players` (and the five permitted fields) are untouched, so update can
never alter a lobby's status, owner or roster. -/
theorem c10_update_discards_unknown_keys :
    ∀ (lobby : Lobby) (userId : String) (updates : Patch) (now : Nat),
      lobby.ownerId = userId →
      updates ≠ [] →
      (∀ kv ∈ updates, allowedUpdates.contains kv.1 = false) →
      updateLobby lobby userId updates now =
        .ok { lobby with updatedAt := now } := by
  intro lobby userId updates now hown hne hkeys
  have hfil : updates.filter (fun kv => allowedUpdates.contains kv.1) = [] := by
    rw [List.filter_eq_nil_iff]
    intro kv hkv
    simpa using hkeys kv hkv
  simp only [updateLobby]
  rw [if_neg (by simp [hown]), hfil]
  rfl

/-- Witness for C10: a patch trying to set `status`, `ownerId` and
`players` leaves all three (and everything else but `updatedAt`) alone. -/
theorem c10_update_discards_unknown_keys_witness :
    updateLobby
      { sport := "Football", location := "Park", time := 10, maxPlayers := 4,
        players := [⟨"bob", "Bob"⟩], ownerId := "owner", status := .OPEN,
        description := none, createdAt := 0, updatedAt := 0 }
      "owner"
      [("status", FieldValue.stat .CANCELLED),
       ("ownerId", FieldValue.str "eve"),
       ("players", FieldValue.playerList [])] 9 =
    .ok { sport := "Football", location := "Park", time := 10,
          maxPlayers := 4, players := [⟨"bob", "Bob"⟩], ownerId := "owner",
          status := .OPEN, description := none, createdAt := 0,
          updatedAt := 9 } :=
  c10_update_discards_unknown_keys _ "owner" _ 9 rfl (by decide) (by decide)

end Matchmaking
